import Mathlib

/-!
Shallow embedding of the navigation and view-state engine of the rmpc
terminal music-player client, together with proofs about it.

The embedding follows the Rust sources:
  * `src/ui/screens/mod.rs`  — the `dirstack` module: `MyState` (generic
    scrolling state) and `DirStack` (drill-down navigation stack).
  * `src/ui/mod.rs`          — the `Ui` orchestrator: key/mouse event
    routing, tab switching (`change_tab`), status-message expiry.
  * `src/ui/panes/queue.rs`  — `QueuePane` jump (filter search) functions.

Machine integers: `content_len`/`viewport_len` are `Option<u16>` and
selections are `usize` in the source; all arithmetic performed on them
(saturating_sub, +1, %, min) is modelled on `Nat`, with the single `as u16`
truncation (scrollbar position) made explicit as `% 65536`.
-/

namespace Rmpc

/-! ## MyState — src/ui/screens/mod.rs, `dirstack::MyState` -/

/-- Scrolling state over an ordered sequence. Mirrors
`MyState { scrollbar_state, inner, content_len, viewport_len }` where
`inner : ScrollingState` only stores the selected index (`ListState` /
`TableState` selection) and `scrollbar_state` only its `position` matters
to the modelled operations (a `u16`, hence the `% 65536` truncation in
`select`). -/
structure MyState where
  scrollbarPos : Nat := 0
  selected : Option Nat := none
  content_len : Option Nat := none
  viewport_len : Option Nat := none
  deriving Repr, DecidableEq

instance : Inhabited MyState := ⟨{}⟩

/-- `MyState::select`: `inner.select_scrolling(idx)` and
`scrollbar_state.position(idx.unwrap_or(0) as u16)`. -/
def MyState.select (s : MyState) (idx : Option Nat) : MyState :=
  { s with selected := idx, scrollbarPos := (idx.getD 0) % 65536 }

/-- `MyState::first`. -/
def MyState.first (s : MyState) : MyState :=
  if s.content_len.isSome then s.select (some 0) else s.select none

/-- `MyState::last` (`item_count.saturating_sub(1)` is `Nat` subtraction). -/
def MyState.last (s : MyState) : MyState :=
  match s.content_len with
  | some c => s.select (some (c - 1))
  | none => s.select none

/-- `MyState::next`: when the selection is at or past
`item_count.saturating_sub(1)` it wraps to `0`, otherwise moves down by
one; with no selection it selects `0`. -/
def MyState.next (s : MyState) : MyState :=
  match s.content_len with
  | some c =>
    let i := match s.selected with
      | some i => if c - 1 ≤ i then 0 else i + 1
      | none => 0
    s.select (some i)
  | none => s.select none

/-- `MyState::prev`: at index `0` it wraps to `item_count.saturating_sub(1)`,
otherwise moves up by one; with no selection it selects `0`. -/
def MyState.prev (s : MyState) : MyState :=
  match s.content_len with
  | some c =>
    let i := match s.selected with
      | some i => if i = 0 then c - 1 else i - 1
      | none => 0
    s.select (some i)
  | none => s.select none

/-- `MyState::next_half_viewport`. -/
def MyState.next_half_viewport (s : MyState) : MyState :=
  match s.content_len with
  | some c =>
    match s.viewport_len with
    | some v =>
      let i := match s.selected with
        | some i => min (i + v / 2) (c - 1)
        | none => 0
      s.select (some i)
    | none => s.select none
  | none => s.select none

/-- `MyState::prev_half_viewport` (`saturating_sub` then `.max(0)`, which on
`Nat` is plain subtraction). -/
def MyState.prev_half_viewport (s : MyState) : MyState :=
  if s.content_len.isSome then
    match s.viewport_len with
    | some v =>
      let i := match s.selected with
        | some i => i - v / 2
        | none => 0
      s.select (some i)
    | none => s.select none
  else s.select none

/-- `MyState::get_selected`. -/
def MyState.get_selected (s : MyState) : Option Nat :=
  s.selected

/-! ## MatchesSearch — src/ui/screens/mod.rs -/

/-- Rust `str::contains` (substring containment). -/
def strContains (hay pat : String) : Bool :=
  decide (pat.toList.IsInfix hay.toList)

/-- Trait `MatchesSearch { fn matches(&self, filter, ignorecase) -> bool }`.
The method is named `matchesSearch` because `matches` is a reserved word in
Lean. -/
class MatchesSearch (α : Type) where
  matchesSearch : α → String → Bool → Bool

export MatchesSearch (matchesSearch)

/-- `impl MatchesSearch for String`: lowercase-contains when `ignorecase`,
plain contains otherwise. -/
instance : MatchesSearch String where
  matchesSearch s filter ignorecase :=
    if ignorecase then strContains s.toLower filter.toLower
    else strContains s filter

/-! ## DirStack — src/ui/screens/mod.rs, `dirstack::DirStack` -/

/-- One frame of the navigation stack: an item list plus its scrolling
state, i.e. one `(Vec<T>, MyState<ListState>)` pair. -/
structure Frame (α : Type) where
  items : List α
  state : MyState
  deriving Repr, DecidableEq

/-- `DirStack<T>`. Rust keeps the ancestor frames in a `Vec` whose *last*
element is the top; here `others` is a list whose *head* is the top
(`Vec::push`/`Vec::pop`/`last()` become cons/head/tail). `preview` items
are abstracted to their display text. -/
structure DirStack (α : Type) where
  current : Frame α
  others : List (Frame α)
  preview : List String
  filter : Option String
  filter_ignore_case : Bool
  deriving Repr, DecidableEq

/-- `DirStack::push`: a fresh default state, selecting index 0 when the new
head is non-empty; the old current frame goes on top of `others`; the
filter is cleared. -/
def DirStack.push (s : DirStack α) (head : List α) : DirStack α :=
  let new_state := if head.isEmpty then ({} : MyState) else MyState.select {} (some 0)
  { s with
    current := ⟨head, new_state⟩
    others := s.current :: s.others
    filter := none }

/-- `DirStack::new(root)`: builds the sentinel-bearing empty stack via
`push(Vec::new())`, then installs `root` (selected at 0 when non-empty) as
the current frame. -/
def DirStack.new (root : List α) : DirStack α :=
  let result : DirStack α :=
    { current := ⟨[], {}⟩, others := [], preview := [], filter := none,
      filter_ignore_case := true }
  let result := result.push []
  let root_state := if root.isEmpty then ({} : MyState) else MyState.select {} (some 0)
  { result with current := ⟨root, root_state⟩ }

/-- `DirStack::pop`: `None` when only the sentinel ancestor remains
(`others.len() <= 1`), otherwise clears the filter, restores the top
ancestor as current and returns the replaced current frame. -/
def DirStack.pop (s : DirStack α) : Option (Frame α) × DirStack α :=
  match s.others with
  | top :: rest =>
    if rest.isEmpty then (none, s)
    else (some s.current, { s with filter := none, current := top, others := rest })
  | [] => (none, s)

/-- `DirStack::get_selected`. -/
def DirStack.get_selected (s : DirStack α) : Option α :=
  match s.current.state.get_selected with
  | some sel => s.current.items.get? sel
  | none => none

/-- The loop-body test of the `DirStack` jump functions:
`self.current.0[i].matches(filter, self.filter_ignore_case)` (the index is
always in bounds where the loops evaluate it). -/
def dirMatchAt [MatchesSearch α] (items : List α) (filter : String) (ignorecase : Bool)
    (i : Nat) : Bool :=
  match items.get? i with
  | some x => matchesSearch x filter ignorecase
  | none => false

/-- `DirStack::jump_forward`: with a filter and a selection, scan indices
`selected+1 .. len` (no wrap-around) and select the first match. -/
def DirStack.jump_forward [MatchesSearch α] (s : DirStack α) : DirStack α :=
  match s.filter with
  | some filter =>
    match s.current.state.get_selected with
    | some selected =>
      let len := s.current.items.length
      match (List.range' (selected + 1) (len - (selected + 1))).find?
          (dirMatchAt s.current.items filter s.filter_ignore_case) with
      | some i => { s with current := { s.current with state := s.current.state.select (some i) } }
      | none => s
    | none => s
  | none => s

/-- `DirStack::jump_back`: with a filter and a selection, scan indices
`(0..selected).rev()` (no wrap-around) and select the first match. -/
def DirStack.jump_back [MatchesSearch α] (s : DirStack α) : DirStack α :=
  match s.filter with
  | some filter =>
    match s.current.state.get_selected with
    | some selected =>
      match ((List.range selected).reverse).find?
          (dirMatchAt s.current.items filter s.filter_ignore_case) with
      | some i => { s with current := { s.current with state := s.current.state.select (some i) } }
      | none => s
    | none => s
  | none => s

/-! ## DirState — used by src/ui/panes/queue.rs -/

/-- Modelled from the spec: `DirState` (the ScrollState used by
`QueuePane.scrolling_state`) is defined in `src/ui/dirstack.rs`, which is
not among the provided sources; only its caller `src/ui/panes/queue.rs`
is. Per the spec's ScrollState data model it carries
`content_length: Option<usize>`, `viewport_length: Option<usize>` and
`selected: Option<usize>`; `select(index, scroll_offset)` sets the
selection (the viewport-scroll recomputation it also performs is not
represented, as no claim concerns the scroll offset) and `get_selected`
returns it. -/
structure DirState where
  content_len : Option Nat := none
  viewport_len : Option Nat := none
  selected : Option Nat := none
  deriving Repr, DecidableEq

/-- Modelled from the spec: `DirState::select` sets the selection. The
`scroll_offset` argument only affects viewport scrolling, which is not
represented. -/
def DirState.select (s : DirState) (idx : Option Nat) (_scrolloff : Nat) : DirState :=
  { s with selected := idx }

/-- Modelled from the spec: `DirState::get_selected`. -/
def DirState.get_selected (s : DirState) : Option Nat :=
  s.selected

/-! ## QueuePane jump functions — src/ui/panes/queue.rs -/

/-- Signal emitted by the queue jump functions when a guard fails:
`status_warn!("No filter set")` or the error-level log
`"No song selected"`. -/
inductive JumpSignal
  | warnNoFilter
  | errNoSelection
  deriving Repr, DecidableEq

/-- The fields of `QueuePane` that its jump functions read or write.
Songs are kept abstract: `song.matches(self.column_formats.as_slice(),
filter)` (defined outside the provided sources) is passed in as the
predicate `p : α → String → Bool`, standing for the match test with the
pane's column formats baked in. -/
structure QueuePane (α : Type) where
  scrolling_state : DirState
  filter : Option String
  deriving Repr, DecidableEq

/-- The indices examined by `QueuePane::jump_forward`:
`for i in selected+1..length+selected { let i = i % length; ... }`. -/
def wrapForwardIndices (length selected : Nat) : List Nat :=
  (List.range' (selected + 1) (length - 1)).map (· % length)

/-- The indices examined by `QueuePane::jump_back`:
`for i in (0..length).rev() { let i = (i + selected) % length; ... }`. -/
def wrapBackIndices (length selected : Nat) : List Nat :=
  ((List.range length).reverse).map (fun i => (i + selected) % length)

/-- The loop-body test of the queue jump functions:
`queue[i].matches(self.column_formats.as_slice(), filter)` with the match
test abstracted as `p` (the wrapped index is always in bounds where the
loops evaluate it). -/
def queueMatchAt (p : α → String → Bool) (queue : List α) (filter : String) (i : Nat) : Bool :=
  match queue.get? i with
  | some song => p song filter
  | none => false

/-- `QueuePane::jump_forward`: warns when no filter is set, logs at error
level when nothing is selected; otherwise scans forward from just past the
selection, wrapping modulo the queue length, and selects the first
matching song. -/
def QueuePane.jump_forward (p : α → String → Bool) (pane : QueuePane α)
    (queue : List α) (scrolloff : Nat) : QueuePane α × Option JumpSignal :=
  match pane.filter with
  | none => (pane, some JumpSignal.warnNoFilter)
  | some filter =>
    match pane.scrolling_state.get_selected with
    | none => (pane, some JumpSignal.errNoSelection)
    | some selected =>
      match (wrapForwardIndices queue.length selected).find? (queueMatchAt p queue filter) with
      | some i =>
        ({ pane with scrolling_state := pane.scrolling_state.select (some i) scrolloff }, none)
      | none => (pane, none)

/-- `QueuePane::jump_back`: same guards as `jump_forward`, then scans
backward from just before the selection, wrapping modulo the queue length
(the starting selection itself is examined last), and selects the first
matching song. -/
def QueuePane.jump_back (p : α → String → Bool) (pane : QueuePane α)
    (queue : List α) (scrolloff : Nat) : QueuePane α × Option JumpSignal :=
  match pane.filter with
  | none => (pane, some JumpSignal.warnNoFilter)
  | some filter =>
    match pane.scrolling_state.get_selected with
    | none => (pane, some JumpSignal.errNoSelection)
    | some selected =>
      match (wrapBackIndices queue.length selected).find? (queueMatchAt p queue filter) with
      | some i =>
        ({ pane with scrolling_state := pane.scrolling_state.select (some i) scrolloff }, none)
      | none => (pane, none)

/-! ## StatusMessage expiry — src/ui/mod.rs -/

/-- Severity levels of a status message. -/
inductive Level
  | Trace
  | Debug
  | Warn
  | Error
  | Info
  deriving Repr, DecidableEq

/-- `StatusMessage { message, level, created }`. `created` is the
`Instant` at which the message was displayed, modelled as a millisecond
timestamp. -/
structure StatusMessage where
  message : String
  level : Level
  created : Nat
  deriving Repr, DecidableEq

/-- The status-message expiry step performed at the top of `Ui::render`,
before the frame content is drawn: the message is dropped when
`created.elapsed() > Duration::from_secs(5)`, with `now` the current
millisecond timestamp (so `elapsed = now - created`). -/
def renderStatusExpiry (msg : Option StatusMessage) (now : Nat) : Option StatusMessage :=
  if (match msg with
      | some m => decide (now - m.created > 5000)
      | none => false) then
    none
  else msg

/-- Which content `Ui::render` puts in the bottom bar, after the expiry
step: the command-line buffer when open, else the status message when
present, else the progress bar / nothing. -/
inductive BarContent
  | commandLine (buffer : String)
  | status (m : StatusMessage)
  | progressOrBlank
  deriving Repr, DecidableEq

/-- The bar-selection logic of `Ui::render` combined with the expiry step
that precedes it: returns the surviving status message and what is drawn. -/
def renderBar (command : Option String) (msg : Option StatusMessage) (now : Nat) :
    Option StatusMessage × BarContent :=
  let msg := renderStatusExpiry msg now
  match command with
  | some buffer => (msg, BarContent.commandLine buffer)
  | none =>
    match msg with
    | some m => (some m, BarContent.status m)
    | none => (none, BarContent.progressOrBlank)

/-! ## Tab switching — src/ui/mod.rs, `Ui::change_tab` -/

/-- The per-tab hooks and the set of defined tabs that `change_tab`
interacts with. `on_hide`/`before_show` return `Some err` on failure
(Rust `Result<()>`); `tabs` are the keys of the `Ui::tabs` map, which
`screen_call!` looks up (failing with a context error when the active tab
is missing). -/
structure TabHooks where
  tabs : List String
  on_hide : String → Option String
  before_show : String → Option String

/-- `Ui::change_tab`: `screen_call!(on_hide)` on the active tab, then the
active-tab pointer is set to `new_tab`, then `screen_call!(before_show)`
on the (new) active tab; each failing step propagates its error with `?`.
Returns the propagated error (if any) and the active-tab pointer after
the call. -/
def changeTab (hooks : TabHooks) (active new_tab : String) : Option String × String :=
  if active ∈ hooks.tabs then
    match hooks.on_hide active with
    | some e => (some e, active)
    | none =>
      let active := new_tab
      if active ∈ hooks.tabs then
        match hooks.before_show active with
        | some e => (some e, active)
        | none => (none, active)
      else (some ("Expected tab to be defined: " ++ active), active)
  else (some ("Expected tab to be defined: " ++ active), active)

/-! ## Key routing — src/ui/mod.rs, `Ui::handle_key` -/

/-- The key codes `Ui::handle_key` distinguishes in command-line mode. -/
inductive KeyCode
  | char (c : Char)
  | backspace
  | other
  deriving Repr, DecidableEq

/-- `config::keys::CommonAction` — the logical common-navigation actions, as
enumerated by the exhaustive match in `QueuePane::handle_action`. -/
inductive CommonAction
  | Up
  | Down
  | MoveUp
  | MoveDown
  | DownHalf
  | UpHalf
  | Bottom
  | Top
  | Right
  | Left
  | EnterSearch
  | NextResult
  | PreviousResult
  | Select
  | Add
  | AddAll
  | Delete
  | Rename
  | Close
  | FocusInput
  | Confirm
  | PaneDown
  | PaneUp
  | PaneRight
  | PaneLeft
  deriving Repr, DecidableEq

/-- `config::keys::GlobalAction` — the global actions, as enumerated by the
exhaustive match in `Ui::handle_key`. -/
inductive GlobalAction
  | Command (command : String)
  | CommandMode
  | NextTrack
  | PreviousTrack
  | Stop
  | ToggleRepeat
  | ToggleRandom
  | ToggleSingle
  | ToggleConsume
  | TogglePause
  | VolumeUp
  | VolumeDown
  | SeekForward
  | SeekBack
  | NextTab
  | PreviousTab
  | SwitchToTab (name : String)
  | ExternalCommand (command : String)
  | Quit
  | ShowHelp
  | ShowOutputs
  | ShowDecoders
  | ShowCurrentSongInfo
  deriving Repr, DecidableEq

/-- A key event after keybinding resolution: its raw code and the
common/global actions the configuration maps it to (`as_common_action` /
`as_global_action`). The pane handler may consume the event
(`stop_propagation`), which is modelled by letting the pane handler return
the possibly-mutated event. -/
structure KeyEvt where
  code : KeyCode
  commonAction : Option CommonAction
  globalAction : Option GlobalAction
  deriving Repr, DecidableEq

/-- The routing layers of `Ui::handle_key` / `Ui::handle_mouse_event`; the
trace of a call records which layers' handlers were invoked, in order. -/
inductive Layer
  | commandLine
  | modalTop (id : Nat)
  | pane
  | globalBindings
  deriving Repr, DecidableEq

/-- The `Ui` state that key routing reads and writes: the command-line
buffer, the modal stack (`Vec<Box<dyn Modal>>`, modelled by modal ids with
the topmost LAST, as in the Rust `Vec`), and the active-tab pointer. -/
structure UiKeyState where
  command : Option String
  modals : List Nat
  activeTab : String
  deriving Repr, DecidableEq

/-- The collaborators `Ui::handle_key` calls out to: the topmost modal's
`handle_key`, the active tab's `handle_action` (which may fail, and may
mutate/consume the key event), command parsing+execution
(`cmd.execute`, where a parse failure only produces a status message, so
only execution failures are returned), and the bodies of the global-action
arms (player-client commands, tab switching via `change_tab`, modal
opening), abstracted as one step on the routing-visible state returning
(error?, new state, quit?). -/
structure KeyRouteEnv where
  modalHandle : Nat → KeyEvt → Option String
  paneHandle : KeyEvt → Except String KeyEvt
  execCommand : String → Option String
  globalStep : GlobalAction → UiKeyState → Option String × UiKeyState × Bool

/-- Outcome of `Ui::handle_key`: propagated error (if any), the updated
routing-visible state, the handlers invoked in order, and whether
`KeyHandleResult::Quit` was returned. -/
structure KeyOutcome where
  err : Option String
  ui : UiKeyState
  layers : List Layer
  quit : Bool
  deriving Repr, DecidableEq

/-- `Ui::handle_key`. Layer 1: when the command-line buffer is open,
`Close` cancels it, `Confirm` parses and executes it, characters and
backspace edit it, anything else is ignored — and the function returns
without consulting modals, the active pane or global bindings. Layer 2:
when the modal stack is non-empty, only the topmost modal's `handle_key`
runs. Layers 3–4: the active tab's `handle_action` runs, then the
(possibly consumed) event is matched against the global bindings. -/
def handleKey (env : KeyRouteEnv) (ui : UiKeyState) (key : KeyEvt) : KeyOutcome :=
  match ui.command with
  | some command =>
    match key.commonAction with
    | some CommonAction.Close =>
      ⟨none, { ui with command := none }, [Layer.commandLine], false⟩
    | some CommonAction.Confirm =>
      match env.execCommand command with
      | some e => ⟨some e, { ui with command := none }, [Layer.commandLine], false⟩
      | none => ⟨none, { ui with command := none }, [Layer.commandLine], false⟩
    | _ =>
      match key.code with
      | KeyCode.char c =>
        ⟨none, { ui with command := some (command.push c) }, [Layer.commandLine], false⟩
      | KeyCode.backspace =>
        ⟨none, { ui with command := some (command.dropRight 1) }, [Layer.commandLine], false⟩
      | KeyCode.other => ⟨none, ui, [Layer.commandLine], false⟩
  | none =>
    match ui.modals.getLast? with
    | some top =>
      match env.modalHandle top key with
      | some e => ⟨some e, ui, [Layer.modalTop top], false⟩
      | none => ⟨none, ui, [Layer.modalTop top], false⟩
    | none =>
      match env.paneHandle key with
      | Except.error e => ⟨some e, ui, [Layer.pane], false⟩
      | Except.ok key =>
        match key.globalAction with
        | none => ⟨none, ui, [Layer.pane], false⟩
        | some action =>
          match env.globalStep action ui with
          | (err, ui, quit) => ⟨err, ui, [Layer.pane, Layer.globalBindings], quit⟩

/-! ## Mouse routing — src/ui/mod.rs, `Ui::handle_mouse_event` -/

/-- Mouse event kinds (`shared::mouse_event::MouseEventKind`). -/
inductive MouseKind
  | LeftClick
  | DoubleClick
  | MiddleClick
  | RightClick
  | ScrollUp
  | ScrollDown
  deriving Repr, DecidableEq

/-- The named screen regions `Ui` lays out (`Areas`). -/
inductive Area
  | Header
  | Tabs
  | Content
  | Bar
  deriving Repr, DecidableEq

/-- What a mouse event causes, mirroring the arms of the match in
`Ui::handle_mouse_event`. -/
inductive MouseEffect
  | modalTop (id : Nat)
  | pauseToggle
  | volumeInc
  | volumeDec
  | seek
  | tabNext
  | tabPrev
  | tabSwitch (name : String)
  | paneContent
  deriving Repr, DecidableEq

/-- The inputs `Ui::handle_mouse_event` consults: the hit-tests of the
event's position against the four layout areas, and the playback /
tab-bar context guarding some arms. -/
structure MouseEnv where
  kind : MouseKind
  contains : Area → Bool
  playingOrPaused : Bool
  tabAtClick : Option String

/-- `Ui::handle_mouse_event`, reduced to the effects it performs. When the
modal stack is non-empty the topmost modal's `handle_mouse_event` runs and
nothing else; otherwise the match arms are tried in source order (header
click/scroll, bar click guarded by play/pause state, tab-bar scroll and
click, content fall-through to the active tab). -/
def handleMouse (env : MouseEnv) (modals : List Nat) (activeTab : String) : List MouseEffect :=
  match modals.getLast? with
  | some top => [MouseEffect.modalTop top]
  | none =>
    if env.kind = MouseKind.LeftClick ∧ env.contains Area.Header then
      [MouseEffect.pauseToggle]
    else if env.kind = MouseKind.ScrollUp ∧ env.contains Area.Header then
      [MouseEffect.volumeInc]
    else if env.kind = MouseKind.ScrollDown ∧ env.contains Area.Header then
      [MouseEffect.volumeDec]
    else if env.kind = MouseKind.LeftClick ∧ env.contains Area.Bar then
      if env.playingOrPaused then [MouseEffect.seek] else []
    else if env.kind = MouseKind.ScrollDown ∧ env.contains Area.Tabs then
      [MouseEffect.tabNext]
    else if env.kind = MouseKind.ScrollUp ∧ env.contains Area.Tabs then
      [MouseEffect.tabPrev]
    else if env.kind = MouseKind.LeftClick ∧ env.contains Area.Tabs then
      match env.tabAtClick with
      | some name => if activeTab ≠ name then [MouseEffect.tabSwitch name] else []
      | none => []
    else if env.contains Area.Content then
      [MouseEffect.paneContent]
    else []

/-! ## Helper lemmas -/

theorem MyState.select_selected (s : MyState) (idx : Option Nat) :
    (s.select idx).selected = idx := rfl

theorem MyState.next_content_len (s : MyState) :
    (s.next).content_len = s.content_len := by
  cases h : s.content_len <;> simp [MyState.next, MyState.select, h]

theorem MyState.next_selected_mod (s : MyState) {n i : Nat} (hc : s.content_len = some n)
    (hs : s.selected = some i) (hi : i < n) :
    (s.next).selected = some ((i + 1) % n) := by
  simp only [MyState.next, hc, hs, MyState.select]
  by_cases h : n - 1 ≤ i
  · have hin : i + 1 = n := by omega
    simp [h, hin]
  · have hlt : i + 1 < n := by omega
    simp [h, Nat.mod_eq_of_lt hlt]

theorem MyState.prev_selected_wrap (s : MyState) {n i : Nat} (hc : s.content_len = some n)
    (hs : s.selected = some i) :
    (s.prev).selected = some (if i = 0 then n - 1 else i - 1) := by
  simp only [MyState.prev, hc, hs, MyState.select]

theorem wrapForwardIndices_lt {length selected : Nat} :
    ∀ i ∈ wrapForwardIndices length selected, i < length := by
  intro i hi
  simp only [wrapForwardIndices, List.mem_map] at hi
  obtain ⟨j, hj, rfl⟩ := hi
  have : length ≠ 0 := by
    intro h
    subst h
    simp at hj
  exact Nat.mod_lt _ (Nat.pos_of_ne_zero this)

theorem wrapBackIndices_lt {length selected : Nat} :
    ∀ i ∈ wrapBackIndices length selected, i < length := by
  intro i hi
  simp only [wrapBackIndices, List.mem_map, List.mem_reverse] at hi
  obtain ⟨j, hj, rfl⟩ := hi
  have : length ≠ 0 := by
    intro h
    subst h
    simp at hj
  exact Nat.mod_lt _ (Nat.pos_of_ne_zero this)

theorem queueMatchAt_true {p : α → String → Bool} {queue : List α} {filter : String} {i : Nat}
    (h : queueMatchAt p queue filter i = true) :
    ∃ song, queue.get? i = some song ∧ p song filter = true := by
  unfold queueMatchAt at h
  cases hq : queue.get? i with
  | none => rw [hq] at h; cases h
  | some song => rw [hq] at h; exact ⟨song, rfl, h⟩

theorem dirMatchAt_true [MatchesSearch α] {items : List α} {filter : String} {ic : Bool} {i : Nat}
    (h : dirMatchAt items filter ic i = true) :
    ∃ x, items.get? i = some x ∧ matchesSearch x filter ic = true := by
  unfold dirMatchAt at h
  cases hq : items.get? i with
  | none => rw [hq] at h; cases h
  | some x => rw [hq] at h; exact ⟨x, rfl, h⟩

/-! ## Claims -/

/-- C2: `DirStack::push(items)` moves the current frame onto the ancestor
stack, installs `items` as current with selection `Some 0` when non-empty
and `None` when empty, and clears the filter; `pop()` on a freshly
constructed stack returns `None` and leaves the stack unchanged; after any
push (on a stack satisfying the sentinel invariant, i.e. with a non-empty
ancestor list), `pop()` returns the pushed-over current frame and restores
the previous frame exactly, clearing the filter. -/
theorem dirstack_push_pop_roundtrip {α : Type} (s : DirStack α) (items root : List α)
    (hs : s.others ≠ []) :
    ((s.push items).current.items = items ∧
      (s.push items).current.state.selected = (if items.isEmpty then none else some 0) ∧
      (s.push items).others = s.current :: s.others ∧
      (s.push items).filter = none) ∧
    (DirStack.new root).pop = (none, DirStack.new root) ∧
    (s.push items).pop = (some (s.push items).current, { s with filter := none }) := by
  refine ⟨⟨rfl, ?_, rfl, rfl⟩, ?_, ?_⟩
  · by_cases h : items.isEmpty <;>
      simp [DirStack.push, MyState.select, h]
  · simp [DirStack.new, DirStack.push, DirStack.pop]
  · simp only [DirStack.pop, DirStack.push]
    rw [if_neg (by simpa using hs)]

/-- C2 witness: concrete instance of push-then-pop on a freshly built
stack. -/
theorem dirstack_push_pop_roundtrip_witness :
    ((DirStack.new ["x"] : DirStack String).push ["y"]).pop =
      (some ((DirStack.new ["x"] : DirStack String).push ["y"]).current,
        { (DirStack.new ["x"] : DirStack String) with filter := none }) :=
  (dirstack_push_pop_roundtrip (DirStack.new ["x"]) ["y"] ["x"] (by decide)).2.2

/-- C3 counterexample: with content length 5 and selection 4, `next()`
wraps the selection to 0 instead of leaving it at 4 (there is no
`wrap: bool` parameter to saturate with). -/
theorem mystate_next_no_saturation :
    (MyState.next { content_len := some 5, selected := some 4 }).selected = some 0 ∧
    (MyState.next { content_len := some 5, selected := some 4 }).selected ≠ some 4 := by
  decide

/-- C3 amended: `MyState::next`/`prev` take no wrap flag and always wrap:
for content length `n` and selection `i < n`, `next` selects `(i+1) % n`
(so `0` at the last index) and `prev` selects `n-1` at index `0` and `i-1`
otherwise. -/
theorem mystate_next_prev_always_wrap (s : MyState) (n i : Nat) (hc : s.content_len = some n)
    (hs : s.selected = some i) (hi : i < n) :
    (s.next).selected = some ((i + 1) % n) ∧
    (s.prev).selected = some (if i = 0 then n - 1 else i - 1) :=
  ⟨MyState.next_selected_mod s hc hs hi, MyState.prev_selected_wrap s hc hs⟩

/-- C3 amended witness: content length 5, selection 2. -/
theorem mystate_next_prev_always_wrap_witness :
    (MyState.next { content_len := some 5, selected := some 2 }).selected = some 3 ∧
    (MyState.prev { content_len := some 5, selected := some 2 }).selected = some 1 := by
  have h := mystate_next_prev_always_wrap
    { content_len := some 5, selected := some 2 } 5 2 rfl rfl (by decide)
  simpa using h

/-- C4 counterexample: with content length `Some 0`, `first()` selects
`Some 0` rather than leaving the selection `None`. -/
theorem mystate_first_zero_selects_zero :
    (MyState.first { content_len := some 0 }).selected = some 0 ∧
    (MyState.first { content_len := some 0 }).selected ≠ none := by
  decide

/-- C4 amended: every navigation operation on a state with *unknown*
content length (`None`) is total and leaves `selected = None`; when the
content length is known to be `0`, `first()` and `last()` instead set the
selection to `Some 0` (the code does not treat a zero count specially). -/
theorem mystate_empty_state_navigation :
    (∀ s : MyState, s.content_len = none →
      (s.first).selected = none ∧ (s.last).selected = none ∧
      (s.next).selected = none ∧ (s.prev).selected = none ∧
      (s.next_half_viewport).selected = none ∧ (s.prev_half_viewport).selected = none) ∧
    (∀ s : MyState, s.content_len = some 0 →
      (s.first).selected = some 0 ∧ (s.last).selected = some 0) := by
  constructor
  · intro s h
    refine ⟨?_, ?_, ?_, ?_, ?_, ?_⟩ <;>
      simp [MyState.first, MyState.last, MyState.next, MyState.prev,
        MyState.next_half_viewport, MyState.prev_half_viewport, MyState.select, h]
  · intro s h
    constructor <;> simp [MyState.first, MyState.last, MyState.select, h]

/-- C4 amended witness: a state with unknown content length and a (stale)
selection, and a state with zero content length. -/
theorem mystate_empty_state_navigation_witness :
    (MyState.next { content_len := none, selected := some 3 }).selected = none ∧
    (MyState.last { content_len := some 0 }).selected = some 0 :=
  ⟨(mystate_empty_state_navigation.1 { content_len := none, selected := some 3 } rfl).2.2.1,
    (mystate_empty_state_navigation.2 { content_len := some 0 } rfl).2⟩

/-- C8: with known content length `n` and a current selection `i < n`,
`n` consecutive `next()` calls return the selection to `i` (the code's
`next` always wraps). -/
theorem mystate_next_period (s : MyState) (n i : Nat) (hc : s.content_len = some n)
    (hs : s.selected = some i) (hi : i < n) :
    (MyState.next^[n] s).selected = some i := by
  have hn : 0 < n := Nat.lt_of_le_of_lt (Nat.zero_le i) hi
  have key : ∀ k : Nat, (MyState.next^[k] s).content_len = some n ∧
      (MyState.next^[k] s).selected = some ((i + k) % n) := by
    intro k
    induction k with
    | zero => simpa [hc, hs] using (Nat.mod_eq_of_lt hi).symm
    | succ k ih =>
      obtain ⟨hck, hsk⟩ := ih
      rw [Function.iterate_succ_apply']
      refine ⟨by rw [MyState.next_content_len, hck], ?_⟩
      rw [MyState.next_selected_mod _ hck hsk (Nat.mod_lt _ (by omega))]
      rw [Nat.mod_add_mod]
      rw [Nat.add_assoc]
  rw [(key n).2, Nat.add_mod_right, Nat.mod_eq_of_lt hi]

/-- C8 witness: content length 3, starting selection 1. -/
theorem mystate_next_period_witness :
    (MyState.next^[3] { content_len := some 3, selected := some 1 }).selected = some 1 :=
  mystate_next_period { content_len := some 3, selected := some 1 } 3 1 rfl rfl (by decide)

/-- C5 counterexample: a two-item stack `["a", "b"]` with filter `"a"`
(case-insensitive) and selection at the last index. Item 0 matches the
filter, yet `DirStack::jump_forward` is a no-op: it does not wrap around
to select index 0, and no signal of any kind is emitted (the function
returns only the stack). -/
theorem dirstack_jump_forward_no_wrap_counterexample :
    (DirStack.jump_forward
      { current := ⟨["a", "b"], { selected := some 1, content_len := some 2 }⟩,
        others := [⟨[], {}⟩], preview := [], filter := some "a",
        filter_ignore_case := true } : DirStack String) =
      { current := ⟨["a", "b"], { selected := some 1, content_len := some 2 }⟩,
        others := [⟨[], {}⟩], preview := [], filter := some "a",
        filter_ignore_case := true } ∧
    matchesSearch "a" "a" true = true := by
  constructor
  · decide
  · simp [matchesSearch, MatchesSearch.matchesSearch, strContains]

/-- Scan-order characterization of `find?` over the forward range of
`DirStack::jump_forward` (`selected+1..len`): it returns the first match. -/
theorem dirForward_find_some (len sel j : Nat) (q : Nat → Bool) (h1 : sel < j) (h2 : j < len)
    (hq : q j = true) (hfirst : ∀ k, sel < k → k < j → q k = false) :
    (List.range' (sel + 1) (len - (sel + 1))).find? q = some j := by
  rw [List.find?_range'_eq_some]
  refine ⟨hq, ?_, ?_⟩
  · rw [List.mem_range'_1]
    omega
  · intro k hk1 hk2
    have := hfirst k (by omega) hk2
    simp [this]

/-- The forward range of `DirStack::jump_forward` has no match at all when
the predicate fails strictly between the selection and the end. -/
theorem dirForward_find_none (len sel : Nat) (q : Nat → Bool)
    (h : ∀ j, sel < j → j < len → q j = false) :
    (List.range' (sel + 1) (len - (sel + 1))).find? q = none := by
  rw [List.find?_range'_eq_none]
  intro i h1 h2
  have := h i (by omega) (by omega)
  simp [this]

/-- `(range sel).reverse` written as a map over `range sel`, the shape the
scan-order lemmas for the backward loops need. -/
theorem reverse_range_eq_map (sel : Nat) :
    (List.range sel).reverse = (List.range sel).map (fun x => sel - 1 - x) := by
  rw [List.range_eq_range', List.reverse_range']
  have h : (fun x => 0 + sel - 1 - x) = (fun x => sel - 1 - x) := by
    funext x
    omega
  rw [h, ← List.range_eq_range']

/-- Scan-order characterization of `find?` over the backward range of
`DirStack::jump_back` (`(0..selected).rev()`): it returns the match
closest below the selection. -/
theorem dirBack_find_some (sel j : Nat) (q : Nat → Bool) (h1 : j < sel) (hq : q j = true)
    (hfirst : ∀ k, j < k → k < sel → q k = false) :
    ((List.range sel).reverse).find? q = some j := by
  rw [reverse_range_eq_map, List.find?_map]
  have hinner : (List.range sel).find? (q ∘ fun x => sel - 1 - x) = some (sel - 1 - j) := by
    rw [List.find?_range_eq_some]
    refine ⟨?_, ?_, ?_⟩
    · show q (sel - 1 - (sel - 1 - j)) = true
      have hj : sel - 1 - (sel - 1 - j) = j := by omega
      rw [hj]
      exact hq
    · rw [List.mem_range]
      omega
    · intro u hu
      have := hfirst (sel - 1 - u) (by omega) (by omega)
      simp only [Function.comp_apply, this, Bool.not_false]
  rw [hinner, Option.map_some']
  have hj : sel - 1 - (sel - 1 - j) = j := by omega
  rw [hj]

/-- The backward range of `DirStack::jump_back` has no match when the
predicate fails everywhere below the selection. -/
theorem dirBack_find_none (sel : Nat) (q : Nat → Bool) (h : ∀ j, j < sel → q j = false) :
    ((List.range sel).reverse).find? q = none := by
  rw [List.find?_eq_none]
  intro x hx
  rw [List.mem_reverse, List.mem_range] at hx
  simp [h x hx]

/-- Scan-order characterization of `find?` over the wrapped forward
candidates of `QueuePane::jump_forward`: step `t` of the loop examines
index `(selected+1+t) % length`, and the first matching step wins. -/
theorem wrapForward_find_some (L sel t : Nat) (q : Nat → Bool) (ht : t < L - 1)
    (hq : q ((sel + 1 + t) % L) = true)
    (hfirst : ∀ u, u < t → q ((sel + 1 + u) % L) = false) :
    (wrapForwardIndices L sel).find? q = some ((sel + 1 + t) % L) := by
  unfold wrapForwardIndices
  rw [List.find?_map]
  have hinner : (List.range' (sel + 1) (L - 1)).find? (q ∘ (· % L)) = some (sel + 1 + t) := by
    rw [List.find?_range'_eq_some]
    refine ⟨hq, ?_, ?_⟩
    · rw [List.mem_range'_1]
      omega
    · intro j hj1 hj2
      have hje : sel + 1 + (j - (sel + 1)) = j := by omega
      have := hfirst (j - (sel + 1)) (by omega)
      rw [hje] at this
      simp only [Function.comp_apply, this, Bool.not_false]
  rw [hinner, Option.map_some']

/-- The wrapped forward candidates of `QueuePane::jump_forward` have no
match when every scan step fails. -/
theorem wrapForward_find_none (L sel : Nat) (q : Nat → Bool)
    (h : ∀ t, t < L - 1 → q ((sel + 1 + t) % L) = false) :
    (wrapForwardIndices L sel).find? q = none := by
  unfold wrapForwardIndices
  rw [List.find?_eq_none]
  intro x hx
  simp only [List.mem_map, List.mem_range'_1] at hx
  obtain ⟨j, ⟨hj1, hj2⟩, rfl⟩ := hx
  have hje : sel + 1 + (j - (sel + 1)) = j := by omega
  have := h (j - (sel + 1)) (by omega)
  rw [hje] at this
  simp [this]

/-- Scan-order characterization of `find?` over the wrapped backward
candidates of `QueuePane::jump_back`: step `t` of the loop examines index
`(length-1-t+selected) % length` (the starting selection itself comes
last, at `t = length-1`), and the first matching step wins. -/
theorem wrapBack_find_some (L sel t : Nat) (q : Nat → Bool) (ht : t < L)
    (hq : q ((L - 1 - t + sel) % L) = true)
    (hfirst : ∀ u, u < t → q ((L - 1 - u + sel) % L) = false) :
    (wrapBackIndices L sel).find? q = some ((L - 1 - t + sel) % L) := by
  unfold wrapBackIndices
  rw [reverse_range_eq_map, List.map_map, List.find?_map]
  have hinner : (List.range L).find?
      (q ∘ ((fun i => (i + sel) % L) ∘ fun x => L - 1 - x)) = some t := by
    rw [List.find?_range_eq_some]
    refine ⟨hq, ?_, ?_⟩
    · rw [List.mem_range]
      exact ht
    · intro u hu
      have := hfirst u hu
      simp only [Function.comp_apply, this, Bool.not_false]
  rw [hinner, Option.map_some']
  simp [Function.comp]

/-- The wrapped backward candidates of `QueuePane::jump_back` have no
match when every scan step fails. -/
theorem wrapBack_find_none (L sel : Nat) (q : Nat → Bool)
    (h : ∀ t, t < L → q ((L - 1 - t + sel) % L) = false) :
    (wrapBackIndices L sel).find? q = none := by
  unfold wrapBackIndices
  rw [List.find?_eq_none]
  intro x hx
  simp only [List.mem_map, List.mem_reverse, List.mem_range] at hx
  obtain ⟨j, hj, rfl⟩ := hx
  have hje : L - 1 - (L - 1 - j) = j := by omega
  have := h (L - 1 - j) (by omega)
  rw [hje] at this
  simp [this]

/-- C5 amended: the two jump families differ. With a filter and a
selection, `DirStack::jump_forward`/`jump_back` scan forward/backward from
just past/before the selection WITHOUT wrapping at the sequence ends,
select the first match in scan order, and are silent no-ops when nothing
matches (and when no filter is set or nothing is selected).
`QueuePane::jump_forward`/`jump_back` scan in the same directions but wrap
around modulo the queue length — step `t` of the forward loop examines
`(sel+1+t) % len`, step `t` of the backward loop `(len-1-t+sel) % len`,
the starting selection coming last — select the first match in scan
order, are silently unchanged when nothing matches, and emit the
warning-level signal only when no filter is set. -/
theorem jump_scan_behavior :
    (∀ {α : Type} [MatchesSearch α] (s : DirStack α) (f : String) (sel : Nat),
      s.filter = some f → s.current.state.selected = some sel →
      ((∀ j, sel < j → j < s.current.items.length →
          dirMatchAt s.current.items f s.filter_ignore_case j = false) →
        s.jump_forward = s) ∧
      (∀ j, sel < j → j < s.current.items.length →
        dirMatchAt s.current.items f s.filter_ignore_case j = true →
        (∀ k, sel < k → k < j → dirMatchAt s.current.items f s.filter_ignore_case k = false) →
        s.jump_forward =
          { s with current := { s.current with state := s.current.state.select (some j) } })) ∧
    (∀ {α : Type} [MatchesSearch α] (s : DirStack α) (f : String) (sel : Nat),
      s.filter = some f → s.current.state.selected = some sel →
      ((∀ j, j < sel → dirMatchAt s.current.items f s.filter_ignore_case j = false) →
        s.jump_back = s) ∧
      (∀ j, j < sel →
        dirMatchAt s.current.items f s.filter_ignore_case j = true →
        (∀ k, j < k → k < sel → dirMatchAt s.current.items f s.filter_ignore_case k = false) →
        s.jump_back =
          { s with current := { s.current with state := s.current.state.select (some j) } })) ∧
    (∀ {α : Type} [MatchesSearch α] (s : DirStack α),
      (s.filter = none → s.jump_forward = s ∧ s.jump_back = s) ∧
      (s.current.state.selected = none → s.jump_forward = s ∧ s.jump_back = s)) ∧
    (∀ {α : Type} (pane : QueuePane α) (p : α → String → Bool) (queue : List α)
        (so : Nat) (f : String) (sel : Nat),
      pane.filter = some f → pane.scrolling_state.selected = some sel →
      ((∀ t, t < queue.length - 1 →
          queueMatchAt p queue f ((sel + 1 + t) % queue.length) = false) →
        pane.jump_forward p queue so = (pane, none)) ∧
      (∀ t, t < queue.length - 1 →
        queueMatchAt p queue f ((sel + 1 + t) % queue.length) = true →
        (∀ u, u < t → queueMatchAt p queue f ((sel + 1 + u) % queue.length) = false) →
        pane.jump_forward p queue so =
          ({ pane with scrolling_state :=
              pane.scrolling_state.select (some ((sel + 1 + t) % queue.length)) so }, none))) ∧
    (∀ {α : Type} (pane : QueuePane α) (p : α → String → Bool) (queue : List α)
        (so : Nat) (f : String) (sel : Nat),
      pane.filter = some f → pane.scrolling_state.selected = some sel →
      ((∀ t, t < queue.length →
          queueMatchAt p queue f ((queue.length - 1 - t + sel) % queue.length) = false) →
        pane.jump_back p queue so = (pane, none)) ∧
      (∀ t, t < queue.length →
        queueMatchAt p queue f ((queue.length - 1 - t + sel) % queue.length) = true →
        (∀ u, u < t →
          queueMatchAt p queue f ((queue.length - 1 - u + sel) % queue.length) = false) →
        pane.jump_back p queue so =
          ({ pane with scrolling_state := pane.scrolling_state.select (some ((queue.length - 1 - t + sel) % queue.length)) so }, none))) ∧
    (∀ {α : Type} (pane : QueuePane α) (p : α → String → Bool) (queue : List α) (so : Nat),
      pane.filter = none →
      pane.jump_forward p queue so = (pane, some JumpSignal.warnNoFilter) ∧
      pane.jump_back p queue so = (pane, some JumpSignal.warnNoFilter)) := by
  refine ⟨?_, ?_, ?_, ?_, ?_, ?_⟩
  · intro α inst s f sel hf hsel
    constructor
    · intro hnone
      have hfind := dirForward_find_none s.current.items.length sel
        (dirMatchAt s.current.items f s.filter_ignore_case) hnone
      simp [DirStack.jump_forward, hf, MyState.get_selected, hsel, hfind]
    · intro j hj1 hj2 hq hfirst
      have hfind := dirForward_find_some s.current.items.length sel j
        (dirMatchAt s.current.items f s.filter_ignore_case) hj1 hj2 hq hfirst
      simp [DirStack.jump_forward, hf, MyState.get_selected, hsel, hfind]
  · intro α inst s f sel hf hsel
    constructor
    · intro hnone
      have hfind := dirBack_find_none sel
        (dirMatchAt s.current.items f s.filter_ignore_case) hnone
      simp [DirStack.jump_back, hf, MyState.get_selected, hsel, hfind]
    · intro j hj1 hq hfirst
      have hfind := dirBack_find_some sel j
        (dirMatchAt s.current.items f s.filter_ignore_case) hj1 hq hfirst
      simp [DirStack.jump_back, hf, MyState.get_selected, hsel, hfind]
  · intro α inst s
    constructor
    · intro hf
      exact ⟨by simp [DirStack.jump_forward, hf], by simp [DirStack.jump_back, hf]⟩
    · intro hsel
      rcases hf : s.filter with _ | f <;>
        exact ⟨by simp [DirStack.jump_forward, hf, MyState.get_selected, hsel],
          by simp [DirStack.jump_back, hf, MyState.get_selected, hsel]⟩
  · intro α pane p queue so f sel hf hsel
    constructor
    · intro hnone
      have hfind := wrapForward_find_none queue.length sel (queueMatchAt p queue f) hnone
      simp [QueuePane.jump_forward, hf, DirState.get_selected, hsel, hfind]
    · intro t ht hq hfirst
      have hfind := wrapForward_find_some queue.length sel t (queueMatchAt p queue f) ht hq hfirst
      simp [QueuePane.jump_forward, hf, DirState.get_selected, hsel, hfind]
  · intro α pane p queue so f sel hf hsel
    constructor
    · intro hnone
      have hfind := wrapBack_find_none queue.length sel (queueMatchAt p queue f) hnone
      simp [QueuePane.jump_back, hf, DirState.get_selected, hsel, hfind]
    · intro t ht hq hfirst
      have hfind := wrapBack_find_some queue.length sel t (queueMatchAt p queue f) ht hq hfirst
      simp [QueuePane.jump_back, hf, DirState.get_selected, hsel, hfind]
  · intro α pane p queue so h
    constructor <;> simp [QueuePane.jump_forward, QueuePane.jump_back, h]

/-- C5 amended witness: the wrapped forward scan on a concrete two-song
queue with the selection on the last song jumps back to the match at
index 0 (first scan step), and the no-filter guard warns. -/
theorem jump_scan_behavior_witness :
    QueuePane.jump_forward (fun s f => s = f)
      ({ scrolling_state := { selected := some 1 }, filter := some "a" } : QueuePane String)
      ["a", "b"] 0 =
      (({ scrolling_state := { selected := some 0 }, filter := some "a" } : QueuePane String),
        none) ∧
    QueuePane.jump_back (fun s f => s = f)
      ({ scrolling_state := { selected := some 1 }, filter := none } : QueuePane String)
      ["a", "b"] 0 =
      (({ scrolling_state := { selected := some 1 }, filter := none } : QueuePane String),
        some JumpSignal.warnNoFilter) := by
  constructor
  · have h := (jump_scan_behavior.2.2.2.1
      ({ scrolling_state := { selected := some 1 }, filter := some "a" } : QueuePane String)
      (fun s f => s = f) ["a", "b"] 0 "a" 1 rfl rfl).2 0 (by decide) (by decide)
      (fun u hu => absurd hu (by omega))
    simpa using h
  · exact (jump_scan_behavior.2.2.2.2.2
      ({ scrolling_state := { selected := some 1 }, filter := none } : QueuePane String)
      (fun s f => s = f) ["a", "b"] 0 rfl).2

/-- C10: the queue jump loops only ever examine in-bounds indices (every
candidate index is reduced modulo the queue length, and the candidate
lists are empty for an empty queue, whatever the — possibly stale —
selection is), and each jump either leaves the pane's selection unchanged
or selects an in-bounds index whose song matches the active filter. -/
theorem queue_jump_safety :
    (∀ length selected : Nat, ∀ i ∈ wrapForwardIndices length selected, i < length) ∧
    (∀ length selected : Nat, ∀ i ∈ wrapBackIndices length selected, i < length) ∧
    (∀ selected : Nat, wrapForwardIndices 0 selected = [] ∧ wrapBackIndices 0 selected = []) ∧
    (∀ {α : Type} (pane : QueuePane α) (p : α → String → Bool) (queue : List α) (so : Nat),
      (pane.jump_forward p queue so).1.scrolling_state.selected =
        pane.scrolling_state.selected ∨
      ∃ i f song, pane.filter = some f ∧ i < queue.length ∧ queue.get? i = some song ∧
        p song f = true ∧
        (pane.jump_forward p queue so).1 =
          { pane with scrolling_state := pane.scrolling_state.select (some i) so }) ∧
    (∀ {α : Type} (pane : QueuePane α) (p : α → String → Bool) (queue : List α) (so : Nat),
      (pane.jump_back p queue so).1.scrolling_state.selected =
        pane.scrolling_state.selected ∨
      ∃ i f song, pane.filter = some f ∧ i < queue.length ∧ queue.get? i = some song ∧
        p song f = true ∧
        (pane.jump_back p queue so).1 =
          { pane with scrolling_state := pane.scrolling_state.select (some i) so }) := by
  refine ⟨?_, ?_, ?_, ?_, ?_⟩
  · intro length selected
    exact wrapForwardIndices_lt
  · intro length selected
    exact wrapBackIndices_lt
  · intro selected
    exact ⟨by simp [wrapForwardIndices], by simp [wrapBackIndices]⟩
  · intro α pane p queue so
    rcases hf : pane.filter with _ | f
    · left
      simp [QueuePane.jump_forward, hf]
    · rcases hsel : pane.scrolling_state.get_selected with _ | sel
      · left
        simp [QueuePane.jump_forward, hf, hsel]
      · rcases hfind : (wrapForwardIndices queue.length sel).find?
            (queueMatchAt p queue f) with _ | i
        · left
          simp [QueuePane.jump_forward, hf, hsel, hfind]
        · right
          have hmem := List.mem_of_find?_eq_some hfind
          have hpred := List.find?_some hfind
          obtain ⟨song, hsong, hp⟩ := queueMatchAt_true hpred
          refine ⟨i, f, song, rfl, wrapForwardIndices_lt i hmem, hsong, hp, ?_⟩
          simp [QueuePane.jump_forward, hf, hsel, hfind]
  · intro α pane p queue so
    rcases hf : pane.filter with _ | f
    · left
      simp [QueuePane.jump_back, hf]
    · rcases hsel : pane.scrolling_state.get_selected with _ | sel
      · left
        simp [QueuePane.jump_back, hf, hsel]
      · rcases hfind : (wrapBackIndices queue.length sel).find?
            (queueMatchAt p queue f) with _ | i
        · left
          simp [QueuePane.jump_back, hf, hsel, hfind]
        · right
          have hmem := List.mem_of_find?_eq_some hfind
          have hpred := List.find?_some hfind
          obtain ⟨song, hsong, hp⟩ := queueMatchAt_true hpred
          refine ⟨i, f, song, rfl, wrapBackIndices_lt i hmem, hsong, hp, ?_⟩
          simp [QueuePane.jump_back, hf, hsel, hfind]

/-- C10 witness: a concrete wrapped candidate index is in bounds. -/
theorem queue_jump_safety_witness :
    (0 : Nat) ∈ wrapForwardIndices 3 2 ∧ (0 : Nat) < 3 :=
  ⟨by decide, queue_jump_safety.1 3 2 0 (by decide)⟩

/-- C6: `Ui::change_tab` runs `on_hide` on the outgoing tab while the
pointer still names it (a failure there propagates with the pointer
unchanged), then moves the pointer, then runs `before_show` on the new tab
(a failure there propagates with the pointer already switched); both
successes leave the pointer on the new tab. -/
theorem change_tab_hook_phases (hooks : TabHooks) (A B e : String)
    (hA : A ∈ hooks.tabs) (hB : B ∈ hooks.tabs) :
    (hooks.on_hide A = some e → changeTab hooks A B = (some e, A)) ∧
    (hooks.on_hide A = none → hooks.before_show B = some e →
      changeTab hooks A B = (some e, B)) ∧
    (hooks.on_hide A = none → hooks.before_show B = none →
      changeTab hooks A B = (none, B)) := by
  refine ⟨fun h => ?_, fun h1 h2 => ?_, fun h1 h2 => ?_⟩ <;>
    simp_all [changeTab]

/-- C6 witness: a concrete failing `before_show` on tab "b". -/
theorem change_tab_hook_phases_witness :
    changeTab ⟨["a", "b"], fun _ => none, fun t => if t = "b" then some "boom" else none⟩
      "a" "b" = (some "boom", "b") :=
  (change_tab_hook_phases
    ⟨["a", "b"], fun _ => none, fun t => if t = "b" then some "boom" else none⟩
    "a" "b" "boom" (by decide) (by decide)).2.1 rfl (by decide)

/-- C7 counterexample: with `on_hide` succeeding and `before_show` on tab
"b" failing, `change_tab` from "a" to "b" propagates the error while the
active-tab pointer is "b", not the unchanged "a" the claim requires. -/
theorem change_tab_failure_not_aborted :
    changeTab ⟨["a", "b"], fun _ => none, fun t => if t = "b" then some "err" else none⟩
      "a" "b" = (some "err", "b") ∧ ("b" : String) ≠ "a" := by
  decide

/-- C7 amended: a failure in `on_hide` aborts the switch with the pointer
unchanged, but a failure in `before_show` merely propagates the error: the
pointer is then already switched to the new tab (and differs from the old
one whenever the tabs differ). -/
theorem change_tab_failure_pointer (hooks : TabHooks) (A B e : String)
    (hA : A ∈ hooks.tabs) (hB : B ∈ hooks.tabs) :
    (hooks.on_hide A = some e → changeTab hooks A B = (some e, A)) ∧
    (hooks.on_hide A = none → hooks.before_show B = some e →
      (changeTab hooks A B).1 = some e ∧ (changeTab hooks A B).2 = B ∧
        (A ≠ B → (changeTab hooks A B).2 ≠ A)) := by
  refine ⟨fun h => ?_, fun h1 h2 => ?_⟩
  · simp_all [changeTab]
  · have : changeTab hooks A B = (some e, B) := by simp_all [changeTab]
    rw [this]
    exact ⟨rfl, rfl, fun hne => fun hc => hne hc.symm⟩

/-- C7 amended witness: a concrete failing `on_hide` leaves the pointer on
the outgoing tab. -/
theorem change_tab_failure_pointer_witness :
    changeTab ⟨["a", "b"], fun _ => some "hideerr", fun _ => none⟩ "a" "b"
      = (some "hideerr", "a") :=
  (change_tab_failure_pointer
    ⟨["a", "b"], fun _ => some "hideerr", fun _ => none⟩
    "a" "b" "hideerr" (by decide) (by decide)).1 rfl

/-- C9: the expiry step at the top of `Ui::render` clears a status message
exactly when its age exceeds 5 seconds, retains it at age 5 seconds or
less, and the bottom bar drawn afterwards reflects the post-expiry
message (an expired message is never drawn); no explicit dismissal is
involved. -/
theorem status_message_expiry (m : StatusMessage) (now : Nat) :
    (now - m.created > 5000 → renderStatusExpiry (some m) now = none) ∧
    (now - m.created ≤ 5000 → renderStatusExpiry (some m) now = some m) ∧
    renderStatusExpiry none now = none ∧
    (renderBar none (some m) now).2 =
      (if now - m.created > 5000 then BarContent.progressOrBlank else BarContent.status m) := by
  refine ⟨fun h => by simp [renderStatusExpiry, h], fun h => ?_, by simp [renderStatusExpiry], ?_⟩
  · have hng : ¬ (now - m.created > 5000) := by omega
    simp [renderStatusExpiry, hng]
  · by_cases h : now - m.created > 5000 <;>
      simp [renderBar, renderStatusExpiry, h]

/-- C9 witness: a message created at time 0 is cleared at 6000 ms and
retained at exactly 5000 ms. -/
theorem status_message_expiry_witness :
    renderStatusExpiry (some ⟨"hello", Level.Info, 0⟩) 6000 = none ∧
    renderStatusExpiry (some ⟨"hello", Level.Info, 0⟩) 5000 = some ⟨"hello", Level.Info, 0⟩ :=
  ⟨(status_message_expiry ⟨"hello", Level.Info, 0⟩ 6000).1 (by decide),
    (status_message_expiry ⟨"hello", Level.Info, 0⟩ 5000).2.1 (by decide)⟩

/-- C1: the four routing layers are tried in strict precedence. With the
command-line buffer open, the key event only drives the command-line layer
(the modal stack and active tab are untouched and no other handler runs);
otherwise with a non-empty modal stack only the topmost modal's handler
runs and the state is untouched; otherwise the active tab's handler runs
and only then may the global bindings be consulted. A mouse event with a
non-empty modal stack likewise only reaches the topmost modal. -/
theorem key_routing_layers :
    (∀ (env : KeyRouteEnv) (ui : UiKeyState) (key : KeyEvt) (c : String),
      ui.command = some c →
      (handleKey env ui key).layers = [Layer.commandLine] ∧
      (handleKey env ui key).ui.modals = ui.modals ∧
      (handleKey env ui key).ui.activeTab = ui.activeTab) ∧
    (∀ (env : KeyRouteEnv) (ui : UiKeyState) (key : KeyEvt) (top : Nat),
      ui.command = none → ui.modals.getLast? = some top →
      (handleKey env ui key).layers = [Layer.modalTop top] ∧
      (handleKey env ui key).ui = ui) ∧
    (∀ (env : KeyRouteEnv) (ui : UiKeyState) (key : KeyEvt),
      ui.command = none → ui.modals = [] →
      (handleKey env ui key).layers = [Layer.pane] ∨
      (handleKey env ui key).layers = [Layer.pane, Layer.globalBindings]) ∧
    (∀ (env : MouseEnv) (modals : List Nat) (activeTab : String) (top : Nat),
      modals.getLast? = some top →
      handleMouse env modals activeTab = [MouseEffect.modalTop top]) := by
  refine ⟨?_, ?_, ?_, ?_⟩
  · intro env ui key c h
    obtain ⟨code, ca, ga⟩ := key
    rcases ca with _ | a
    · cases code <;> simp [handleKey, h]
    · cases a <;> (try cases code) <;>
        simp [handleKey, h] <;>
        (rcases hE : env.execCommand c with _ | e <;> simp [hE])
  · intro env ui key top h htop
    rcases hm : env.modalHandle top key with _ | e <;>
      simp [handleKey, h, htop, hm]
  · intro env ui key h hmod
    have htop : ui.modals.getLast? = none := by simp [hmod]
    rcases hp : env.paneHandle key with e | key'
    · left
      simp [handleKey, h, htop, hp]
    · rcases hg : key'.globalAction with _ | a
      · left
        simp [handleKey, h, htop, hp, hg]
      · right
        rcases hgs : env.globalStep a ui with ⟨err, ui', q⟩
        simp [handleKey, h, htop, hp, hg, hgs]
  · intro env modals activeTab top htop
    simp [handleMouse, htop]

/-- C1 witness: with the command line open, a concrete key event is
consumed by the command-line layer only. -/
theorem key_routing_layers_witness :
    (handleKey
      ⟨fun _ _ => none, fun k => Except.ok k, fun _ => none, fun _ ui => (none, ui, false)⟩
      ⟨some "vol", [7], "queue"⟩ ⟨KeyCode.other, none, none⟩).layers = [Layer.commandLine] :=
  (key_routing_layers.1
    ⟨fun _ _ => none, fun k => Except.ok k, fun _ => none, fun _ ui => (none, ui, false)⟩
    ⟨some "vol", [7], "queue"⟩ ⟨KeyCode.other, none, none⟩ "vol" rfl).1

end Rmpc
